import Mathlib

/-!
Shallow Lean 4 embedding of the orchestration core of the attpc_envoy
repository (Rust): the ECC state machine (src/envoy/ecc_operation.rs),
the status manager (src/envoy/status_manager.rs), the embassy message bus
(src/envoy/embassy.rs), the envoy worker command loop
(src/envoy/ecc_envoy.rs) and the transition engine (src/envoy/transition.rs).

Rust i32 values are modelled as Lean Int (all values used are tiny, no
overflow occurs anywhere in the embedded code paths), Vec as List, and
fallible conversions as Except.  Asynchronous channels are modelled
explicitly: the tokio mpsc result channel is a queue plus a count of live
senders, and tokio try_recv semantics (Empty vs Disconnected) are encoded
directly.  Blocking poll loops, which have no bound in the source, are
modelled with explicit fuel.
-/

namespace AttpcEnvoy

/-! ## Constants (src/envoy/constants.rs) -/

def NUMBER_OF_MODULES : Nat := 12

def MUTANT_ID : Nat := 11

/-! ## ECC state machine (src/envoy/ecc_operation.rs) -/

/-- The status of a getECCServer, from `enum ECCStatus`. -/
inductive ECCStatus where
  | Offline
  | Busy
  | Idle
  | Prepared
  | Described
  | Ready
  | Running
  | ErrorStat
  | Inconsistent
deriving Repr, DecidableEq

/-- Error of `TryFrom<String> for ECCStatus` (src/envoy/error.rs `ECCStatusError`). -/
inductive ECCStatusError where
  | BadString (s : String)
deriving Repr, DecidableEq

/-- Operation performed on a getECCServer, from `enum ECCOperation`. -/
inductive ECCOperation where
  | Describe
  | Prepare
  | Configure
  | Start
  | Undo
  | Breakup
  | Stop
  | Invalid
deriving Repr, DecidableEq

/-- Error of `TryFrom<String> for ECCOperation` (src/envoy/error.rs). -/
inductive ECCOperationError where
  | BadString (s : String)
deriving Repr, DecidableEq

namespace ECCStatus

/-- Embeds `impl From<ECCStatus> for String` (and the identical Display). -/
def toString : ECCStatus → String
  | .Offline => "Offline"
  | .Busy => "Busy"
  | .Idle => "Idle"
  | .Prepared => "Prepared"
  | .Described => "Described"
  | .Ready => "Ready"
  | .Running => "Running"
  | .ErrorStat => "Error"
  | .Inconsistent => "Inconsistent"

/-- Embeds `impl From<ECCStatus> for i32`. -/
def toInt : ECCStatus → Int
  | .Offline => 0
  | .Idle => 1
  | .Prepared => 2
  | .Described => 3
  | .Ready => 4
  | .Running => 5
  | .Busy => 6
  | _ => -1

/-- Embeds `impl TryFrom<String> for ECCStatus`. -/
def fromString (value : String) : Except ECCStatusError ECCStatus :=
  if value = "Offline" then .ok .Offline
  else if value = "Busy" then .ok .Busy
  else if value = "Idle" then .ok .Idle
  else if value = "Prepared" then .ok .Prepared
  else if value = "Described" then .ok .Described
  else if value = "Ready" then .ok .Ready
  else if value = "Running" then .ok .Running
  else if value = "Error" then .ok .ErrorStat
  else if value = "Inconsistent" then .ok .Inconsistent
  else .error (.BadString value)

/-- Embeds `impl From<i32> for ECCStatus` (any unrecognized code falls back to ErrorStat). -/
def fromInt : Int → ECCStatus
  | 0 => .Offline
  | 1 => .Idle
  | 2 => .Described
  | 3 => .Prepared
  | 4 => .Ready
  | 5 => .Running
  | 6 => .Busy
  | _ => .ErrorStat

/-- Embeds `ECCStatus::get_forward_operation`. -/
def get_forward_operation : ECCStatus → ECCOperation
  | .Idle => .Describe
  | .Described => .Prepare
  | .Prepared => .Configure
  | _ => .Invalid

/-- Embeds `ECCStatus::get_backward_operation`. -/
def get_backward_operation : ECCStatus → ECCOperation
  | .Ready => .Breakup
  | .Prepared => .Undo
  | .Described => .Undo
  | _ => .Invalid

/-- Embeds `ECCStatus::can_go_forward`. -/
def can_go_forward (s : ECCStatus) : Bool :=
  match s with
  | .Idle | .Described | .Prepared => true
  | _ => false

/-- Embeds `ECCStatus::can_go_backward`. -/
def can_go_backward (s : ECCStatus) : Bool :=
  match s with
  | .Ready | .Prepared | .Described => true
  | _ => false

end ECCStatus

namespace ECCOperation

/-- Embeds `impl From<ECCOperation> for String` (and the identical Display). -/
def toString : ECCOperation → String
  | .Describe => "Describe"
  | .Prepare => "Prepare"
  | .Configure => "Configure"
  | .Start => "Start"
  | .Undo => "Undo"
  | .Breakup => "Breakup"
  | .Stop => "Stop"
  | .Invalid => "Invalid"

/-- Embeds `impl TryFrom<String> for ECCOperation`. -/
def fromString (value : String) : Except ECCOperationError ECCOperation :=
  if value = "Describe" then .ok .Describe
  else if value = "Prepare" then .ok .Prepare
  else if value = "Configure" then .ok .Configure
  else if value = "Start" then .ok .Start
  else if value = "Undo" then .ok .Undo
  else if value = "Breakup" then .ok .Breakup
  else if value = "Stop" then .ok .Stop
  else if value = "Invalid" then .ok .Invalid
  else .error (.BadString value)

end ECCOperation

/-! ## Typed response records (src/envoy/ecc_envoy.rs, src/envoy/sentry_types.rs) -/

/-- Embeds `struct ECCOperationResponse` (error_code: i32, error_message, text). -/
structure ECCOperationResponse where
  error_code : Int
  error_message : String
  text : String
deriving Repr, DecidableEq

/-- Embeds the derived `Default` of ECCOperationResponse. -/
def ECCOperationResponse.default : ECCOperationResponse :=
  { error_code := 0, error_message := "", text := "" }

/-- Embeds `struct ECCStatusResponse` (error_code: i32, error_message, state: i32, transition: i32). -/
structure ECCStatusResponse where
  error_code : Int
  error_message : String
  state : Int
  transition : Int
deriving Repr, DecidableEq

/-- Embeds the derived `Default` of ECCStatusResponse (all zero, empty string). -/
def ECCStatusResponse.default : ECCStatusResponse :=
  { error_code := 0, error_message := "", state := 0, transition := 0 }

/-- Embeds `struct SentryStatus` (src/envoy/sentry_types.rs); f64 fields kept as Float. -/
structure SentryStatus where
  disk : String
  process : String
  data_path : String
  data_written_gb : Float
  data_path_files : Int
  disk_avail_gb : Float
  disk_total_gb : Float
  data_rate_mb : Float
deriving Repr

/-- Embeds `impl Default for SentryStatus`. -/
def SentryStatus.default : SentryStatus :=
  { disk := "N/A", process := "N/A", data_path := "N/A", data_written_gb := 0,
    data_path_files := 0, disk_avail_gb := 0, disk_total_gb := 0, data_rate_mb := 0 }

/-! ## Messages (src/envoy/message.rs)

The `message.rs` checked into src/ is an older revision: it lacks the
`ECCOpResponse`, `SentryStatus` and `SentryOperation` kinds and the generic
`EmbassyMessage::compose` that `status_manager.rs`, `transition.rs` and
`sentry_types.rs` use.  The kind enumeration below therefore follows the
spec (section 3, Message: kind determines the body schema; conversion to a
typed record fails when the kind does not match) together with the variant
names the in-src consumers match on. -/

/-- Modelled from the spec: the message-kind enumeration used by
status_manager.rs and transition.rs (the spec kinds ControlOperation,
ControlOpResponse, ControlStatus, MonitorReport, Cancel), with the variant
names those in-src files match on; the message.rs revision in src/ lacks the
response/monitor kinds. -/
inductive MessageKind where
  | ECCOperationMsg
  | ECCOpResponse
  | ECCStatusMsg
  | SentryStatusMsg
  | SentryOperationMsg
  | Cancel
deriving Repr, DecidableEq

/-- The kind-determined payload of a message.  The source carries the payload
as a serialized string in `EmbassyMessage.response`; well-formed messages
round-trip through serde_yaml, so the payload is embedded as the typed record
itself, and a payload whose schema disagrees with the kind stands for a
string that fails to deserialize. -/
inductive MessagePayload where
  | emptyPayload
  | opResponse (r : ECCOperationResponse)
  | statusResponse (r : ECCStatusResponse)
  | sentry (r : SentryStatus)
deriving Repr

/-- Embeds `struct EmbassyMessage` (kind, id, operation, response). -/
structure EmbassyMessage where
  kind : MessageKind
  id : Nat
  operation : String
  response : MessagePayload
deriving Repr

/-- Embeds `EmbassyError` (src/envoy/error.rs). -/
inductive EmbassyError where
  | FailedSend
  | InvalidKind (expected got : MessageKind)
  | FailedParse
  | FailedRecieve
  | FailedJoin
  | InvalidTransition (op : ECCOperation)
deriving Repr, DecidableEq

namespace EmbassyMessage

/-- Embeds `EmbassyMessage::compose(operation, id)` for an ECCOperation value
(kind ECCOperation, operation string, empty response), as composed by
transition.rs; matches `compose_ecc_op` of the in-src message.rs. -/
def compose_ecc_op (op : ECCOperation) (id : Nat) : EmbassyMessage :=
  { kind := .ECCOperationMsg, id := id, operation := op.toString,
    response := .emptyPayload }

/-- Embeds composing an operation-response message (kind ECCOpResponse),
as produced by a transition envoy for the status manager. -/
def compose_ecc_response (r : ECCOperationResponse) (id : Nat) : EmbassyMessage :=
  { kind := .ECCOpResponse, id := id, operation := "None", response := .opResponse r }

/-- Embeds `EmbassyMessage::compose_ecc_status`. -/
def compose_ecc_status (r : ECCStatusResponse) (id : Nat) : EmbassyMessage :=
  { kind := .ECCStatusMsg, id := id, operation := "None", response := .statusResponse r }

/-- Embeds composing a sentry (monitor) status message (kind SentryStatus). -/
def compose_sentry_status (r : SentryStatus) (id : Nat) : EmbassyMessage :=
  { kind := .SentryStatusMsg, id := id, operation := "None", response := .sentry r }

/-- Embeds `EmbassyMessage::compose_cancel`. -/
def compose_cancel : EmbassyMessage :=
  { kind := .Cancel, id := 0, operation := "None", response := .emptyPayload }

/-- Embeds `TryInto<ECCStatusResponse> for &EmbassyMessage`: kind must be
ECCStatus, then the body must deserialize as an ECCStatusResponse. -/
def try_into_status (m : EmbassyMessage) : Except EmbassyError ECCStatusResponse :=
  match m.kind with
  | .ECCStatusMsg =>
      match m.response with
      | .statusResponse r => .ok r
      | _ => .error .FailedParse
  | k => .error (.InvalidKind .ECCStatusMsg k)

/-- Embeds `TryInto<ECCOperationResponse> for &EmbassyMessage`. -/
def try_into_op_response (m : EmbassyMessage) : Except EmbassyError ECCOperationResponse :=
  match m.kind with
  | .ECCOpResponse =>
      match m.response with
      | .opResponse r => .ok r
      | _ => .error .FailedParse
  | k => .error (.InvalidKind .ECCOpResponse k)

/-- Embeds `TryInto<SentryStatus> for &EmbassyMessage`. -/
def try_into_sentry (m : EmbassyMessage) : Except EmbassyError SentryStatus :=
  match m.kind with
  | .SentryStatusMsg =>
      match m.response with
      | .sentry r => .ok r
      | _ => .error .FailedParse
  | k => .error (.InvalidKind .SentryStatusMsg k)

end EmbassyMessage

/-! ## Status manager (src/envoy/status_manager.rs) -/

/-- Embeds `struct StatusManager` (ecc_status: Vec, sentry_status: Vec, ecc_holds: Vec). -/
structure StatusManager where
  ecc_status : List ECCStatusResponse
  sentry_status : List SentryStatus
  ecc_holds : List Bool
deriving Repr

namespace StatusManager

/-- Embeds `StatusManager::new` (NUMBER_OF_MODULES default records, one fewer sentry). -/
def new : StatusManager :=
  { ecc_status := List.replicate NUMBER_OF_MODULES ECCStatusResponse.default,
    sentry_status := List.replicate (NUMBER_OF_MODULES - 1) SentryStatus.default,
    ecc_holds := List.replicate NUMBER_OF_MODULES false }

/-- Embeds `StatusManager::reset` (records back to defaults; holds untouched). -/
def reset (sm : StatusManager) : StatusManager :=
  { sm with
    ecc_status := sm.ecc_status.map (fun _ => ECCStatusResponse.default),
    sentry_status := sm.sentry_status.map (fun _ => SentryStatus.default) }

/-- Embeds one iteration of the `for message in messages` loop of
`StatusManager::handle_messages`.  Vec indexing is modelled with getD/set;
every claim proved below constrains ids to be in range, where the two agree
with the panicking Rust indexing. -/
def handle_one (sm : StatusManager) (m : EmbassyMessage) :
    Except EmbassyError StatusManager :=
  match m.kind with
  | .ECCOpResponse =>
      match m.try_into_op_response with
      | .error e => .error e
      | .ok _resp =>
          -- success or failure of the remote operation is only logged
          .ok { sm with ecc_holds := sm.ecc_holds.set m.id false }
  | .ECCStatusMsg =>
      match m.try_into_status with
      | .error e => .error e
      | .ok resp =>
          -- a nonzero error code is only logged
          if !(sm.ecc_holds.getD m.id false) then
            .ok { sm with ecc_status := sm.ecc_status.set m.id resp }
          else
            .ok sm
  | .SentryStatusMsg =>
      match m.try_into_sentry with
      | .error e => .error e
      | .ok resp => .ok { sm with sentry_status := sm.sentry_status.set m.id resp }
  | _ =>
      -- any other kind is only a logged warning
      .ok sm

/-- Embeds `StatusManager::handle_messages`.  The Rust method mutates
`&mut self` and returns Result, so mutations made before a failing message
persist: the embedding returns the manager as mutated so far together with
the error, if any. -/
def handle_messages (sm : StatusManager) :
    List EmbassyMessage → StatusManager × Option EmbassyError
  | [] => (sm, none)
  | m :: rest =>
      match sm.handle_one m with
      | .ok sm2 => sm2.handle_messages rest
      | .error e => (sm, some e)

/-- Embeds the early-return loop of `StatusManager::get_system_ecc_status`. -/
def system_scan (sys : Int) : List ECCStatusResponse → ECCStatus
  | [] => ECCStatus.fromInt sys
  | r :: rest => if sys ≠ r.state then .Inconsistent else system_scan sys rest

/-- Embeds `StatusManager::get_system_ecc_status` (status of module 0 if all
records agree, Inconsistent otherwise). -/
def get_system_ecc_status (sm : StatusManager) : ECCStatus :=
  system_scan (sm.ecc_status.headD ECCStatusResponse.default).state sm.ecc_status

/-- Embeds the shared loop of `is_all_but_mutant_running` and
`is_all_but_mutant_ready`: do the first NUMBER_OF_MODULES - 1 records all
agree with the state of record 0. -/
def all_but_mutant_same (sm : StatusManager) : Bool :=
  let sys := (sm.ecc_status.headD ECCStatusResponse.default).state
  (sm.ecc_status.take (NUMBER_OF_MODULES - 1)).all (fun r => r.state = sys)

/-- Embeds `StatusManager::is_all_but_mutant_running`. -/
def is_all_but_mutant_running (sm : StatusManager) : Bool :=
  sm.all_but_mutant_same &&
    (ECCStatus.fromInt (sm.ecc_status.headD ECCStatusResponse.default).state == .Running)

/-- Embeds `StatusManager::is_all_but_mutant_ready`. -/
def is_all_but_mutant_ready (sm : StatusManager) : Bool :=
  sm.all_but_mutant_same &&
    (ECCStatus.fromInt (sm.ecc_status.headD ECCStatusResponse.default).state == .Ready)

/-- Embeds `StatusManager::get_ecc_status`. -/
def get_ecc_status (sm : StatusManager) (id : Nat) : ECCStatus :=
  ECCStatus.fromInt (sm.ecc_status.getD id ECCStatusResponse.default).state

/-- Embeds `StatusManager::is_mutant_stopped`.  NOTE: exactly as in the
source, this returns whether the recorded MuTaNT status IS Running, despite
its doc comment (is the MuTaNT stopped, not running). -/
def is_mutant_stopped (sm : StatusManager) : Bool :=
  sm.get_ecc_status MUTANT_ID == .Running

/-- Embeds `StatusManager::is_mutant_prepared`. -/
def is_mutant_prepared (sm : StatusManager) : Bool :=
  sm.get_ecc_status MUTANT_ID == .Prepared

/-- Embeds `StatusManager::is_mutant_ready`. -/
def is_mutant_ready (sm : StatusManager) : Bool :=
  sm.get_ecc_status MUTANT_ID == .Ready

/-- Embeds `StatusManager::set_ecc_busy` (guarded no-op above MUTANT_ID; sets
the stored state field to the Busy code and raises the hold flag). -/
def set_ecc_busy (sm : StatusManager) (id : Nat) : StatusManager :=
  if id > MUTANT_ID then sm
  else
    { sm with
      ecc_status := sm.ecc_status.set id
        { sm.ecc_status.getD id ECCStatusResponse.default with state := ECCStatus.toInt .Busy },
      ecc_holds := sm.ecc_holds.set id true }

/-- Embeds `StatusManager::can_ecc_go_forward` (cross-module overrides of the
plain per-module predicate). -/
def can_ecc_go_forward (sm : StatusManager) (id : Nat) : Bool :=
  let status := sm.get_ecc_status id
  if status == .Described && id != MUTANT_ID then
    (sm.get_ecc_status MUTANT_ID == .Prepared || sm.get_ecc_status MUTANT_ID == .Ready)
  else if status == .Prepared && id == MUTANT_ID then
    sm.is_all_but_mutant_ready
  else
    status.can_go_forward

end StatusManager

/-! ## Embassy message bus (src/envoy/embassy.rs)

The shared result channel is a tokio mpsc channel: it is modelled as the
queue of currently buffered messages plus the number of live senders (each
spawned envoy task owns one clone; the clone made in `startup` is dropped
when `startup` returns).  `try_recv` on it returns a message while the
buffer is non-empty, then Empty while a sender is alive, and Disconnected
once every sender has been dropped: these are the documented tokio
semantics that `poll_messages` is written against.

The per-module command channels (`ecc_senders`) are observed through a
single chronological log `submitted` of the messages routed to them, plus
the list of registered module ids; `blocking_send` to a live envoy is
modelled as succeeding. -/

/-- The shared envoy-to-embassy result channel (tokio mpsc). -/
structure MpscChannel where
  queue : List EmbassyMessage
  senders : Nat
deriving Repr

/-- Embeds `struct Embassy` for the orchestration-side operations the claims
use: registered command-channel ids, the result channel receiver, the worker
task handles (just their count), the running flag, and the chronological log
of command messages routed to envoy channels. -/
structure Embassy where
  registered : List Nat
  envoy_reciever : Option MpscChannel
  handles : Option Nat
  is_running : Bool
  submitted : List EmbassyMessage
deriving Repr

namespace Embassy

/-- Modelled from the spec: `is_connected` is the trivial accessor used by
transition.rs; the embassy.rs revision in src/ exposes the same flag as
`is_running`. -/
def is_connected (e : Embassy) : Bool := e.is_running

/-- Embeds `Embassy::submit_message`: only ECCOperation-kind messages are
routed, to the channel registered for the message id; other kinds and
unregistered ids are silently ignored.  Sending to a live envoy succeeds. -/
def submit_message (e : Embassy) (m : EmbassyMessage) :
    Embassy × Except EmbassyError Unit :=
  if m.kind = .ECCOperationMsg ∧ m.id ∈ e.registered then
    ({ e with submitted := e.submitted ++ [m] }, .ok ())
  else
    (e, .ok ())

/-- Embeds `Embassy::poll_messages`: drain the result channel without
blocking.  The Rust loop pushes messages until try_recv yields Empty
(returning the batch) or Disconnected (returning Err and discarding the
batch); with the tokio semantics above, it errors exactly when every sender
has been dropped, and otherwise returns the buffered batch in arrival
order. -/
def poll_messages (e : Embassy) : Embassy × Except EmbassyError (List EmbassyMessage) :=
  match e.envoy_reciever with
  | none => (e, .ok [])
  | some ch =>
      let drained : Embassy := { e with envoy_reciever := some { ch with queue := [] } }
      if ch.senders = 0 then (drained, .error .FailedRecieve)
      else (drained, .ok ch.queue)

/-- Embeds `Embassy::shutdown`: broadcast one cancel message, then join every
worker task.  After the join completes every envoy task has returned, so
every clone of the result-channel sender has been dropped. -/
def shutdown (e : Embassy) : Embassy :=
  { e with
    handles := none,
    envoy_reciever := e.envoy_reciever.map (fun ch => { ch with senders := 0 }) }

/-- Embeds `Embassy::number_of_tasks`. -/
def number_of_tasks (e : Embassy) : Nat :=
  match e.handles with
  | some n => n
  | none => 0

/-- The embassy as `Embassy::startup` leaves it: a command channel registered
for every module id, an empty result channel whose senders are the
2 * NUMBER_OF_MODULES ECC envoy tasks plus the NUMBER_OF_MODULES - 1
surveyor tasks, and the matching task handles. -/
def startup_state : Embassy :=
  { registered := List.range NUMBER_OF_MODULES,
    envoy_reciever := some { queue := [], senders := 3 * NUMBER_OF_MODULES - 1 },
    handles := some (3 * NUMBER_OF_MODULES - 1),
    is_running := true,
    submitted := [] }

end Embassy

/-! ## Transition engine (src/envoy/transition.rs)

The engine runs synchronously against (Embassy, StatusManager).  What the
async envoys deliver between two calls of `poll_messages` is the
environment: `Env n` is the batch of messages that has arrived in the result
channel when the control thread performs its n-th poll (none models a poll
whose receive side reported an error).  Unbounded `loop` constructs carry
explicit fuel. -/

/-- The state the transition engine operates on, plus the poll counter
selecting the environment batch. -/
structure SimState where
  embassy : Embassy
  sm : StatusManager
  pollCount : Nat
deriving Repr

/-- The environment: the batch of result messages available at the n-th poll. -/
def Env : Type := Nat → Option (List EmbassyMessage)

/-- Embeds `poll_embassy` (transition.rs): no-op when disconnected, otherwise
poll the embassy, log (and swallow) a poll error, and feed any batch to the
status manager, propagating only its deserialization error. -/
def poll_embassy (env : Env) (st : SimState) : SimState × Option EmbassyError :=
  if ¬ st.embassy.is_connected then (st, none)
  else
    match env st.pollCount with
    | none =>
        -- Embassy::poll_messages returned Err: logged, not propagated
        ({ st with pollCount := st.pollCount + 1 }, none)
    | some msgs =>
        ({ st with sm := (st.sm.handle_messages msgs).1, pollCount := st.pollCount + 1 },
         (st.sm.handle_messages msgs).2)

/-- Outcome of a fuelled blocking loop. -/
inductive LoopOut where
  | ok (st : SimState)
  | fail (st : SimState) (e : EmbassyError)
  | fuelOut
deriving Repr

/-- Embeds the shared blocking idiom `loop { poll_embassy(..)?;
if pred { break } }` with explicit fuel. -/
def block_until (pred : SimState → Bool) : Nat → Env → SimState → LoopOut
  | 0, _, _ => .fuelOut
  | fuel + 1, env, st =>
      match (poll_embassy env st).2 with
      | some e => .fail (poll_embassy env st).1 e
      | none =>
          if pred (poll_embassy env st).1 then .ok (poll_embassy env st).1
          else block_until pred fuel env (poll_embassy env st).1

/-- Embeds the body of the `for id in ids` loop of `transition_ecc`: look up
the forward or backward operation for the module, submit a command message
unless the operation is Invalid (a submit error is only logged), then mark
the module busy. -/
def transition_step (is_forward : Bool) (st : SimState) (id : Nat) : SimState :=
  let status := st.sm.get_ecc_status id
  let operation : ECCOperation :=
    if is_forward then status.get_forward_operation else status.get_backward_operation
  let st2 :=
    match operation with
    | .Invalid => st
    | op =>
        { st with embassy := (st.embassy.submit_message (EmbassyMessage.compose_ecc_op op id)).1 }
  { st2 with sm := st2.sm.set_ecc_busy id }

/-- Embeds `transition_ecc`: early return on an empty id list, early return
(with a logged error) on a disconnected bus, otherwise the per-id loop. -/
def transition_ecc (st : SimState) (ids : List Nat) (is_forward : Bool) : SimState :=
  if ids.isEmpty then st
  else if ¬ st.embassy.is_connected then st
  else ids.foldl (transition_step is_forward) st

/-- Embeds `forward_mutant_prepared_blocking`. -/
def forward_mutant_prepared_blocking (fuel : Nat) (env : Env) (st : SimState) : LoopOut :=
  block_until (fun s => s.sm.is_mutant_prepared) fuel env
    (transition_ecc st [MUTANT_ID] true)

/-- Embeds `forward_cobos_ready_blocking`. -/
def forward_cobos_ready_blocking (fuel : Nat) (env : Env) (st : SimState) : LoopOut :=
  block_until (fun s => s.sm.is_all_but_mutant_ready) fuel env
    (transition_ecc st (List.range (NUMBER_OF_MODULES - 1)) true)

/-- Embeds `forward_transition_all`: dispatch on the forward operation of the
aggregate system status; Describe is unordered, Prepare is master first then
front-ends, Configure is front-ends first then master, anything else is a
typed invalid-transition error. -/
def forward_transition_all (fuel : Nat) (env : Env) (st : SimState) : LoopOut :=
  match (st.sm.get_system_ecc_status).get_forward_operation with
  | .Describe => .ok (transition_ecc st (List.range NUMBER_OF_MODULES) true)
  | .Prepare =>
      match forward_mutant_prepared_blocking fuel env st with
      | .ok st2 => .ok (transition_ecc st2 (List.range (NUMBER_OF_MODULES - 1)) true)
      | .fail st2 e => .fail st2 e
      | .fuelOut => .fuelOut
  | .Configure =>
      match forward_cobos_ready_blocking fuel env st with
      | .ok st2 => .ok (transition_ecc st2 [MUTANT_ID] true)
      | .fail st2 e => .fail st2 e
      | .fuelOut => .fuelOut
  | e => .fail st (.InvalidTransition e)

/-- Embeds `backward_transition_all`. -/
def backward_transition_all (st : SimState) : SimState :=
  transition_ecc st (List.range NUMBER_OF_MODULES) false

/-- Embeds `stop_mutant_blocking`: submit a Stop command for the MuTaNT and
block until `is_mutant_stopped` holds. -/
def stop_mutant_blocking (fuel : Nat) (env : Env) (st : SimState) : LoopOut :=
  let st1 :=
    { st with
      embassy := (st.embassy.submit_message (EmbassyMessage.compose_ecc_op .Stop MUTANT_ID)).1 }
  block_until (fun s => s.sm.is_mutant_stopped) fuel env st1

/-! ## Envoy command-path worker loop (src/envoy/ecc_envoy.rs)

One iteration of `ECCEnvoy::wait_for_transition` selects over the broadcast
cancel signal and the inbound command channel.  The outcome of
`submit_transition` (the network round trip plus response parsing) for a
received command is supplied by the environment; forwarding a response on
the live outbound channel succeeds. -/

/-- Error type of the envoy task (src/envoy/error.rs `EnvoyError`), with the
payload-free shape sufficient for the claims. -/
inductive EnvoyError where
  | BadRequest
  | SendErr
  | InvalidStatus
  | BadOperation
  | FailedMessageParse
  | InvalidStringToInt
  | FailedXMLParse
  | FailedXMLConvert
deriving Repr, DecidableEq

/-- One event observed by the `tokio::select!` of `wait_for_transition`. -/
inductive EnvoyInput where
  | cancelSignal
  | channelClosed
  | incoming (m : EmbassyMessage) (outcome : Except EnvoyError EmbassyMessage)
deriving Repr

/-- Embeds `ECCEnvoy::wait_for_transition` over a finite prefix of events:
returns the responses forwarded so far and, if the loop has exited, its
result.  A cancel or a closed channel returns Ok; an error from
`submit_transition` is propagated by the question-mark operator, exiting the
loop with that error. -/
def wait_for_transition :
    List EnvoyInput → List EmbassyMessage → List EmbassyMessage × Option (Except EnvoyError Unit)
  | [], sent => (sent, none)
  | .cancelSignal :: _, sent => (sent, some (.ok ()))
  | .channelClosed :: _, sent => (sent, some (.ok ()))
  | .incoming _ (.error e) :: _, sent => (sent, some (.error e))
  | .incoming _ (.ok resp) :: rest, sent => wait_for_transition rest (sent ++ [resp])

/-! ## Concrete fixtures used by the witnesses and counterexamples -/

/-- A status record whose wire state is the given code (other fields default). -/
def mkStatusRecord (s : Int) : ECCStatusResponse :=
  { ECCStatusResponse.default with state := s }

/-- A status manager whose NUMBER_OF_MODULES records all carry wire state s. -/
def uniformSM (s : Int) : StatusManager :=
  { ecc_status := List.replicate NUMBER_OF_MODULES (mkStatusRecord s),
    sentry_status := [],
    ecc_holds := List.replicate NUMBER_OF_MODULES false }

/-- The uniform Ready(4) manager with module 5 flipped to Running(5). -/
def flippedSM : StatusManager :=
  { uniformSM 4 with ecc_status := (uniformSM 4).ecc_status.set 5 (mkStatusRecord 5) }

/-- Front-ends all Described(2), master carrying the given wire state. -/
def frontDescribedSM (masterState : Int) : StatusManager :=
  { ecc_status :=
      List.replicate (NUMBER_OF_MODULES - 1) (mkStatusRecord 2) ++ [mkStatusRecord masterState],
    sentry_status := [],
    ecc_holds := List.replicate NUMBER_OF_MODULES false }

/-- The recorded MuTaNT control status of a finished blocking loop, if it
finished successfully. -/
def LoopOut.final_mutant_status : LoopOut → Option ECCStatus
  | .ok st => some (st.sm.get_ecc_status MUTANT_ID)
  | _ => none

/-- Engine state just after startup with every module recorded Running(5). -/
def allRunningState : SimState :=
  { embassy := Embassy.startup_state, sm := uniformSM 5, pollCount := 0 }

/-- Engine state just after startup with every module recorded Ready(4). -/
def allReadyState : SimState :=
  { embassy := Embassy.startup_state, sm := uniformSM 4, pollCount := 0 }

/-- Engine state just after startup with every module recorded Described(2). -/
def allDescribedState : SimState :=
  { embassy := Embassy.startup_state, sm := uniformSM 2, pollCount := 0 }

/-- The ids, in order, of the command messages a successfully finished loop
has routed since startup. -/
def LoopOut.submitted_ids : LoopOut → Option (List Nat)
  | .ok st => some (st.embassy.submitted.map (fun m => m.id))
  | _ => none

/-- An environment in which every poll delivers the MuTaNT operation
response followed by a MuTaNT status report carrying Prepared(3). -/
def mutantPreparedEnv : Env := fun _ =>
  some [EmbassyMessage.compose_ecc_response ECCOperationResponse.default MUTANT_ID,
        EmbassyMessage.compose_ecc_status (mkStatusRecord 3) MUTANT_ID]

/-- The cross-module sequencing property of `forward_transition_all` (claim
C2): in the Prepare phase every command routed before the final front-end
batch targets the MuTaNT, the front-end batch is issued only from a state
the status manager reports as master-Prepared, and a failing run has routed
commands to the MuTaNT only; in the Configure phase every command routed
before the final MuTaNT command targets a front-end, and the MuTaNT command
is issued only from a state reporting all front-ends Ready; any aggregate
forward operation other than Describe, Prepare and Configure is rejected
with a typed invalid-transition error, with the state untouched. -/
def ForwardSeqProp (fuel : Nat) (env : Env) (st : SimState) : Prop :=
  ((st.sm.get_system_ecc_status).get_forward_operation = .Prepare →
    (∀ st2, forward_transition_all fuel env st = .ok st2 →
      ∃ stMid, forward_mutant_prepared_blocking fuel env st = .ok stMid
        ∧ stMid.sm.is_mutant_prepared = true
        ∧ (∃ l, stMid.embassy.submitted = st.embassy.submitted ++ l
              ∧ ∀ m ∈ l, m.id = MUTANT_ID)
        ∧ st2 = transition_ecc stMid (List.range (NUMBER_OF_MODULES - 1)) true)
    ∧ (∀ st2 e, forward_transition_all fuel env st = .fail st2 e →
        ∃ l, st2.embassy.submitted = st.embassy.submitted ++ l
          ∧ ∀ m ∈ l, m.id = MUTANT_ID))
  ∧ ((st.sm.get_system_ecc_status).get_forward_operation = .Configure →
    (∀ st2, forward_transition_all fuel env st = .ok st2 →
      ∃ stMid, forward_cobos_ready_blocking fuel env st = .ok stMid
        ∧ stMid.sm.is_all_but_mutant_ready = true
        ∧ (∃ l, stMid.embassy.submitted = st.embassy.submitted ++ l
              ∧ ∀ m ∈ l, m.id ≠ MUTANT_ID)
        ∧ st2 = transition_ecc stMid [MUTANT_ID] true)
    ∧ (∀ st2 e, forward_transition_all fuel env st = .fail st2 e →
        ∃ l, st2.embassy.submitted = st.embassy.submitted ++ l
          ∧ ∀ m ∈ l, m.id ≠ MUTANT_ID))
  ∧ ((st.sm.get_system_ecc_status).get_forward_operation ≠ .Describe →
     (st.sm.get_system_ecc_status).get_forward_operation ≠ .Prepare →
     (st.sm.get_system_ecc_status).get_forward_operation ≠ .Configure →
      forward_transition_all fuel env st
        = .fail st (.InvalidTransition (st.sm.get_system_ecc_status).get_forward_operation))

end AttpcEnvoy

namespace AttpcEnvoy

/-! ## Theorems -/

/-- Helper: getD of set at the updated in-range index. -/
theorem getD_set_self {α : Type} (l : List α) (i : Nat) (a d : α) (h : i < l.length) :
    (l.set i a).getD i d = a := by
  induction l generalizing i with
  | nil => simp at h
  | cons b bs ih =>
      cases i with
      | zero => rfl
      | succ j =>
          simp only [List.set, List.getD, List.get?]
          have : j < bs.length := by simpa using h
          simpa [List.getD] using ih j this

/-- C1: string round-trips are the identity for every ControlStatus
(ECCStatus) and ControlOperation, and the integer round-trip is the identity
for Offline, Idle, Ready, Running and Busy; but the two integer conversion
tables disagree on Prepared and Described (to-integer maps Prepared to 2 and
Described to 3, from-integer maps 2 to Described and 3 to Prepared), so the
integer round-trip swaps those two non-sentinel statuses instead of being
the identity the claim states. -/
theorem ecc_conversion_roundtrip_audit :
    (∀ s : ECCStatus, ECCStatus.fromString (ECCStatus.toString s) = .ok s)
    ∧ (∀ op : ECCOperation, ECCOperation.fromString (ECCOperation.toString op) = .ok op)
    ∧ ECCStatus.fromInt (ECCStatus.toInt .Offline) = .Offline
    ∧ ECCStatus.fromInt (ECCStatus.toInt .Idle) = .Idle
    ∧ ECCStatus.fromInt (ECCStatus.toInt .Ready) = .Ready
    ∧ ECCStatus.fromInt (ECCStatus.toInt .Running) = .Running
    ∧ ECCStatus.fromInt (ECCStatus.toInt .Busy) = .Busy
    ∧ ECCStatus.fromInt (ECCStatus.toInt .Prepared) = .Described
    ∧ ECCStatus.fromInt (ECCStatus.toInt .Described) = .Prepared := by
  refine ⟨fun s => ?_, fun op => ?_, rfl, rfl, rfl, rfl, rfl, rfl, rfl⟩
  · cases s <;> rfl
  · cases op <;> rfl

/-- C5 counterexample: a network failure while executing the first submitted
command makes `wait_for_transition` exit with that error; the second queued
command is never executed and no response is ever forwarded, refuting the
claim that the worker loop continues and keeps processing later commands. -/
theorem wait_for_transition_stops_on_command_failure :
    wait_for_transition
      [EnvoyInput.incoming (EmbassyMessage.compose_ecc_op .Configure 0) (.error .BadRequest),
       EnvoyInput.incoming (EmbassyMessage.compose_ecc_op .Start 0)
         (.ok (EmbassyMessage.compose_ecc_response ECCOperationResponse.default 0))]
      []
    = ([], some (.error .BadRequest)) := rfl

/-- C5 amended: a network I/O or remote-side-error failure on the command
path terminates the `wait_for_transition` loop at once with that error (the
question-mark operator propagates it out of the loop); the spawning wrapper
in `startup_ecc_envoys` then logs it and the envoy task ends, so no later
command of the remaining input is processed and no further response is
forwarded. -/
theorem wait_for_transition_error_propagates (m : EmbassyMessage) (e : EnvoyError)
    (rest : List EnvoyInput) (sent : List EmbassyMessage) :
    wait_for_transition (EnvoyInput.incoming m (.error e) :: rest) sent
      = (sent, some (.error e)) := rfl

/-- C6: the wait-loop exit predicate of `stop_mutant_blocking`,
`is_mutant_stopped`, returns true exactly when the recorded master state IS
Running (its own doc comment says it should mean stopped, not running), so
`stop_mutant_blocking` returns while the master is still recorded Running:
from an all-Running(5) startup state it exits after a single empty poll with
the master still recorded Running, and from an all-Idle state the loop
predicate is false. -/
theorem stop_mutant_blocking_exits_while_running :
    (uniformSM 5).is_mutant_stopped = true
    ∧ (uniformSM 1).is_mutant_stopped = false
    ∧ (stop_mutant_blocking 1 (fun _ => some []) allRunningState).final_mutant_status
        = some .Running := by
  refine ⟨by decide, by decide, by decide⟩

/-- C9 counterexample: after `shutdown` has joined every worker task (all
result-channel senders dropped), the very next `poll_messages` on the
post-startup embassy returns the FailedRecieve disconnection error, not an
Ok empty batch as the claim states. -/
theorem poll_after_shutdown_errors :
    (Embassy.startup_state.shutdown.poll_messages).2 = .error .FailedRecieve
    ∧ (Embassy.startup_state.shutdown.poll_messages).2 ≠ .ok [] := by
  constructor
  · rfl
  · intro h
    exact Except.noConfusion h

/-- C9 amended: while at least one envoy task is alive, polling an empty
result channel returns an Ok empty batch (and an absent receiver also yields
an Ok empty batch), never an error; but once `shutdown` has completed, every
sender has been dropped, and `poll_messages` returns the FailedRecieve
disconnection error instead of an empty batch. -/
theorem poll_messages_empty_and_shutdown_spec :
    (∀ (e : Embassy) (ch : MpscChannel), e.envoy_reciever = some ch → ch.senders ≠ 0 →
        ch.queue = [] → (e.poll_messages).2 = .ok [])
    ∧ (∀ e : Embassy, e.envoy_reciever = none → (e.poll_messages).2 = .ok [])
    ∧ (∀ (e : Embassy) (ch : MpscChannel), e.envoy_reciever = some ch →
        ((e.shutdown).poll_messages).2 = .error .FailedRecieve) := by
  refine ⟨?_, ?_, ?_⟩
  · intro e ch hch hs hq
    simp [Embassy.poll_messages, hch, hs, hq]
  · intro e hch
    simp [Embassy.poll_messages, hch]
  · intro e ch hch
    simp [Embassy.poll_messages, Embassy.shutdown, hch]

/-- C8 counterexample: with module 0 recorded Ready (whose forward operation
is Invalid), `transition_ecc` on the id list [0] submits nothing, yet module
0 is still marked busy: its stored record becomes Busy and its hold flag is
raised, refuting the claim that a module is marked busy only when a command
message is submitted for it. -/
theorem transition_ecc_marks_busy_without_submitting :
    (transition_ecc allReadyState [0] true).embassy.submitted = []
    ∧ (transition_ecc allReadyState [0] true).sm.get_ecc_status 0 = .Busy
    ∧ (transition_ecc allReadyState [0] true).sm.ecc_holds.getD 0 false = true := by
  refine ⟨rfl, by decide, by decide⟩

/-- Helper: scanning a list whose states all equal the probe yields the probe
status. -/
theorem system_scan_all_eq {l : List ECCStatusResponse} {sys : Int}
    (h : ∀ r ∈ l, r.state = sys) :
    StatusManager.system_scan sys l = ECCStatus.fromInt sys := by
  induction l with
  | nil => rfl
  | cons a as ih =>
      have ha : a.state = sys := h a (by simp)
      have hrest : ∀ r ∈ as, r.state = sys := fun r hr => h r (by simp [hr])
      simp [StatusManager.system_scan, ha, ih hrest]

/-- Helper: scanning a list containing a state different from the probe
yields Inconsistent. -/
theorem system_scan_mismatch {l : List ECCStatusResponse} {sys : Int}
    (h : ∃ r ∈ l, r.state ≠ sys) :
    StatusManager.system_scan sys l = ECCStatus.Inconsistent := by
  induction l with
  | nil => simp at h
  | cons a as ih =>
      by_cases ha : sys = a.state
      · have hrest : ∃ r ∈ as, r.state ≠ sys := by
          rcases h with ⟨r, hr, hne⟩
          rcases List.mem_cons.mp hr with rfl | hmem
          · exact absurd ha.symm hne
          · exact ⟨r, hmem, hne⟩
        simp only [StatusManager.system_scan, ha, ne_eq, not_true_eq_false, if_false]
        simpa [← ha] using ih hrest
      · simp [StatusManager.system_scan, ha]

/-- C4: with the full complement of NUMBER_OF_MODULES = 12 records,
`get_system_ecc_status` returns the decoded state of module 0 whenever every
record carries the identical state value, and returns Inconsistent whenever
some record disagrees with module 0. -/
theorem get_system_status_uniform_or_inconsistent (sm : StatusManager) (s : Int)
    (h : sm.ecc_status.length = NUMBER_OF_MODULES) :
    ((∀ r ∈ sm.ecc_status, r.state = s) →
        sm.get_system_ecc_status = ECCStatus.fromInt s)
    ∧ ((∃ r ∈ sm.ecc_status,
          r.state ≠ (sm.ecc_status.headD ECCStatusResponse.default).state) →
        sm.get_system_ecc_status = ECCStatus.Inconsistent) := by
  constructor
  · intro hall
    have hhead : (sm.ecc_status.headD ECCStatusResponse.default).state = s := by
      cases hl : sm.ecc_status with
      | nil => rw [hl] at h; simp [NUMBER_OF_MODULES] at h
      | cons a as =>
          have : a ∈ sm.ecc_status := by rw [hl]; simp
          simpa [hl] using hall a this
    have hall2 : ∀ r ∈ sm.ecc_status,
        r.state = (sm.ecc_status.headD ECCStatusResponse.default).state := by
      intro r hr; rw [hhead]; exact hall r hr
    calc sm.get_system_ecc_status
        = ECCStatus.fromInt (sm.ecc_status.headD ECCStatusResponse.default).state :=
          system_scan_all_eq hall2
      _ = ECCStatus.fromInt s := by rw [hhead]
  · intro hex
    exact system_scan_mismatch hex

/-- C4 witness: the hypotheses hold at the concrete managers of the claim
(N = 12): all twelve records at Ready(4) aggregate to Ready, and flipping
module 5 to Running(5) aggregates to Inconsistent. -/
theorem get_system_status_uniform_or_inconsistent_witness :
    (uniformSM 4).ecc_status.length = NUMBER_OF_MODULES
    ∧ flippedSM.ecc_status.length = NUMBER_OF_MODULES
    ∧ (uniformSM 4).get_system_ecc_status = ECCStatus.Ready
    ∧ flippedSM.get_system_ecc_status = ECCStatus.Inconsistent := by
  refine ⟨by decide, by decide, ?_, ?_⟩
  · exact (get_system_status_uniform_or_inconsistent (uniformSM 4) 4 (by decide)).1 (by decide)
  · exact (get_system_status_uniform_or_inconsistent flippedSM 4 (by decide)).2 (by decide)

/-- C7: `can_ecc_go_forward` overrides the per-module predicate exactly as
claimed: a front-end recorded Described can advance precisely when the
master is recorded Prepared or Ready; the master recorded Prepared can
advance precisely when all front-ends are Ready; every other case defers to
the plain per-module `can_go_forward`; and concretely front-end 3 in
Described cannot advance under a master in Idle but can under a master in
Prepared or in Ready. -/
theorem can_ecc_go_forward_cross_module :
    (∀ (sm : StatusManager) (id : Nat), id ≠ MUTANT_ID →
        sm.get_ecc_status id = ECCStatus.Described →
        (sm.can_ecc_go_forward id = true ↔
          (sm.get_ecc_status MUTANT_ID = ECCStatus.Prepared
            ∨ sm.get_ecc_status MUTANT_ID = ECCStatus.Ready)))
    ∧ (∀ sm : StatusManager, sm.get_ecc_status MUTANT_ID = ECCStatus.Prepared →
        sm.can_ecc_go_forward MUTANT_ID = sm.is_all_but_mutant_ready)
    ∧ (∀ (sm : StatusManager) (id : Nat),
        ¬(sm.get_ecc_status id = ECCStatus.Described ∧ id ≠ MUTANT_ID) →
        ¬(sm.get_ecc_status id = ECCStatus.Prepared ∧ id = MUTANT_ID) →
        sm.can_ecc_go_forward id = (sm.get_ecc_status id).can_go_forward)
    ∧ (frontDescribedSM 1).can_ecc_go_forward 3 = false
    ∧ (frontDescribedSM 3).can_ecc_go_forward 3 = true
    ∧ (frontDescribedSM 4).can_ecc_go_forward 3 = true := by
  refine ⟨?_, ?_, ?_, by decide, by decide, by decide⟩
  · intro sm id hid hdesc
    simp [StatusManager.can_ecc_go_forward, hdesc, hid]
  · intro sm h
    simp [StatusManager.can_ecc_go_forward, h]
  · intro sm id h1 h2
    have c1 : (sm.get_ecc_status id == ECCStatus.Described && id != MUTANT_ID) = false := by
      rw [Bool.eq_false_iff]
      intro hc
      rw [Bool.and_eq_true, beq_iff_eq, bne_iff_ne] at hc
      exact h1 hc
    have c2 : (sm.get_ecc_status id == ECCStatus.Prepared && id == MUTANT_ID) = false := by
      rw [Bool.eq_false_iff]
      intro hc
      rw [Bool.and_eq_true, beq_iff_eq, beq_iff_eq] at hc
      exact h2 hc
    simp [StatusManager.can_ecc_go_forward, c1, c2]

/-- Helper: a status message for a module whose hold flag is raised leaves
the whole manager untouched. -/
theorem handle_one_status_suppressed {sm : StatusManager} {id : Nat}
    (h : sm.ecc_holds.getD id false = true) (r : ECCStatusResponse) :
    sm.handle_one (EmbassyMessage.compose_ecc_status r id) = .ok sm := by
  have h2 : sm.ecc_holds[id]?.getD false = true := by simpa [List.getD] using h
  simp [StatusManager.handle_one, EmbassyMessage.compose_ecc_status,
    EmbassyMessage.try_into_status, h2]

/-- Helper: any batch of status messages for a held module leaves the whole
manager untouched and raises no error. -/
theorem handle_messages_status_suppressed {sm : StatusManager} {id : Nat}
    (h : sm.ecc_holds.getD id false = true) (rs : List ECCStatusResponse) :
    sm.handle_messages (rs.map (fun r => EmbassyMessage.compose_ecc_status r id))
      = (sm, none) := by
  induction rs with
  | nil => rfl
  | cons r rest ih =>
      simp only [List.map_cons, StatusManager.handle_messages,
        handle_one_status_suppressed h r]
      exact ih

/-- Helper: processing a single operation-response message clears the hold
flag of its module and changes nothing else. -/
theorem handle_messages_op_response (sm : StatusManager) (r : ECCOperationResponse)
    (id : Nat) :
    sm.handle_messages [EmbassyMessage.compose_ecc_response r id]
      = ({ sm with ecc_holds := sm.ecc_holds.set id false }, none) := rfl

/-- C3: after `set_ecc_busy id` (for an in-range id with the full complement
of hold flags), (a) any sequence of status messages for id leaves the
manager, and in particular its stored record for id, unchanged; (b) one
operation-response message for id clears the hold flag and changes nothing
else; (c) a status message for id processed after that overwrites the stored
record for id with the delivered record. -/
theorem hold_flag_suppression (sm : StatusManager) (id : Nat)
    (rs : List ECCStatusResponse) (opr : ECCOperationResponse) (r2 : ECCStatusResponse)
    (hlen : sm.ecc_holds.length = NUMBER_OF_MODULES)
    (hid : id < NUMBER_OF_MODULES) :
    ((sm.set_ecc_busy id).handle_messages
        (rs.map (fun r => EmbassyMessage.compose_ecc_status r id))
      = (sm.set_ecc_busy id, none))
    ∧ ((sm.set_ecc_busy id).handle_messages [EmbassyMessage.compose_ecc_response opr id]
      = ({ sm.set_ecc_busy id with
            ecc_holds := (sm.set_ecc_busy id).ecc_holds.set id false }, none))
    ∧ ((((sm.set_ecc_busy id).handle_messages
          [EmbassyMessage.compose_ecc_response opr id]).1.handle_messages
          [EmbassyMessage.compose_ecc_status r2 id]).1.ecc_status
      = (sm.set_ecc_busy id).ecc_status.set id r2) := by
  have hmid : MUTANT_ID = 11 := rfl
  have hmod : NUMBER_OF_MODULES = 12 := rfl
  have hguard : ¬ id > MUTANT_ID := by omega
  have hbusy : sm.set_ecc_busy id
      = { sm with
          ecc_status := sm.ecc_status.set id
            { sm.ecc_status.getD id ECCStatusResponse.default with
                state := ECCStatus.toInt .Busy },
          ecc_holds := sm.ecc_holds.set id true } := by
    simp [StatusManager.set_ecc_busy, hguard]
  have hheld : (sm.set_ecc_busy id).ecc_holds.getD id false = true := by
    rw [hbusy]
    exact getD_set_self _ _ _ _ (by omega)
  refine ⟨handle_messages_status_suppressed hheld rs, handle_messages_op_response _ _ _, ?_⟩
  rw [handle_messages_op_response]
  have hl2 : (sm.set_ecc_busy id).ecc_holds.length = NUMBER_OF_MODULES := by
    rw [hbusy]
    simpa using hlen
  have hcleared : ((sm.set_ecc_busy id).ecc_holds.set id false)[id]?.getD false = false := by
    have := getD_set_self ((sm.set_ecc_busy id).ecc_holds) id false false (by omega)
    simpa [List.getD] using this
  simp [StatusManager.handle_messages, StatusManager.handle_one,
    EmbassyMessage.compose_ecc_status, EmbassyMessage.try_into_status, hcleared]

/-- C3 witness: the hypotheses hold at a concrete manager (all modules Idle,
full hold-flag vector) and module id 3: a status message delivered while
module 3 is held leaves the manager unchanged. -/
theorem hold_flag_suppression_witness :
    (uniformSM 1).ecc_holds.length = NUMBER_OF_MODULES
    ∧ 3 < NUMBER_OF_MODULES
    ∧ ((uniformSM 1).set_ecc_busy 3).handle_messages
        ([mkStatusRecord 4].map (fun r => EmbassyMessage.compose_ecc_status r 3))
      = ((uniformSM 1).set_ecc_busy 3, none) := by
  refine ⟨by decide, by decide, ?_⟩
  exact (hold_flag_suppression (uniformSM 1) 3 [mkStatusRecord 4]
    ECCOperationResponse.default (mkStatusRecord 4) (by decide) (by decide)).1

/-- C10: processing an operation-response message for module id mutates
exactly the hold flag of id (set to false) and nothing else; consequently a
module set to Busy by `set_ecc_busy` still reads Busy after its operation
response is processed, and only the next (non-suppressed) status message for
id overwrites its record with the delivered state. -/
theorem op_response_frame (sm : StatusManager) (opr : ECCOperationResponse)
    (r2 : ECCStatusResponse) (id : Nat)
    (hlen : sm.ecc_status.length = NUMBER_OF_MODULES)
    (hholds : sm.ecc_holds.length = NUMBER_OF_MODULES)
    (hid : id < NUMBER_OF_MODULES) :
    (sm.handle_messages [EmbassyMessage.compose_ecc_response opr id]
      = ({ sm with ecc_holds := sm.ecc_holds.set id false }, none))
    ∧ (((sm.set_ecc_busy id).handle_messages
          [EmbassyMessage.compose_ecc_response opr id]).1.get_ecc_status id
        = ECCStatus.Busy)
    ∧ ((((sm.set_ecc_busy id).handle_messages
          [EmbassyMessage.compose_ecc_response opr id]).1.handle_messages
          [EmbassyMessage.compose_ecc_status r2 id]).1.get_ecc_status id
        = ECCStatus.fromInt r2.state) := by
  have hmid : MUTANT_ID = 11 := rfl
  have hmod : NUMBER_OF_MODULES = 12 := rfl
  have hguard : ¬ id > MUTANT_ID := by omega
  have hbusy : sm.set_ecc_busy id
      = { sm with
          ecc_status := sm.ecc_status.set id
            { sm.ecc_status.getD id ECCStatusResponse.default with
                state := ECCStatus.toInt .Busy },
          ecc_holds := sm.ecc_holds.set id true } := by
    simp [StatusManager.set_ecc_busy, hguard]
  have hls : (sm.set_ecc_busy id).ecc_status.length = NUMBER_OF_MODULES := by
    rw [hbusy]
    simpa using hlen
  have hl2 : (sm.set_ecc_busy id).ecc_holds.length = NUMBER_OF_MODULES := by
    rw [hbusy]
    simpa using hholds
  refine ⟨handle_messages_op_response _ _ _, ?_, ?_⟩
  · rw [handle_messages_op_response]
    show ({ sm.set_ecc_busy id with
        ecc_holds := (sm.set_ecc_busy id).ecc_holds.set id false } :
      StatusManager).get_ecc_status id = ECCStatus.Busy
    rw [StatusManager.get_ecc_status]
    have hrec : ({ sm.set_ecc_busy id with
        ecc_holds := (sm.set_ecc_busy id).ecc_holds.set id false } :
      StatusManager).ecc_status.getD id ECCStatusResponse.default
        = { sm.ecc_status.getD id ECCStatusResponse.default with
            state := ECCStatus.toInt .Busy } := by
      rw [hbusy]
      exact getD_set_self _ _ _ _ (by omega)
    rw [hrec]
    rfl
  · rw [handle_messages_op_response]
    have hcleared : ((sm.set_ecc_busy id).ecc_holds.set id false)[id]?.getD false = false := by
      have := getD_set_self ((sm.set_ecc_busy id).ecc_holds) id false false (by omega)
      simpa [List.getD] using this
    have hset : ((sm.set_ecc_busy id).ecc_status.set id r2)[id]?.getD
        ECCStatusResponse.default = r2 := by
      have := getD_set_self ((sm.set_ecc_busy id).ecc_status) id r2
        ECCStatusResponse.default (by omega)
      simpa [List.getD] using this
    simp [StatusManager.handle_messages, StatusManager.handle_one,
      EmbassyMessage.compose_ecc_status, EmbassyMessage.try_into_status, hcleared,
      StatusManager.get_ecc_status, List.getD, hset]

/-- C10 witness: the hypotheses hold at a concrete manager and id 3, and
after marking module 3 busy its record still reads Busy once the operation
response has been processed. -/
theorem op_response_frame_witness :
    (uniformSM 1).ecc_status.length = NUMBER_OF_MODULES
    ∧ (uniformSM 1).ecc_holds.length = NUMBER_OF_MODULES
    ∧ 3 < NUMBER_OF_MODULES
    ∧ (((uniformSM 1).set_ecc_busy 3).handle_messages
        [EmbassyMessage.compose_ecc_response ECCOperationResponse.default 3]).1.get_ecc_status 3
      = ECCStatus.Busy := by
  refine ⟨by decide, by decide, by decide, ?_⟩
  exact (op_response_frame (uniformSM 1) ECCOperationResponse.default
    (mkStatusRecord 4) 3 (by decide) (by decide) (by decide)).2.1

/-- Helper: routing a message appends it to the submit log or leaves the log
unchanged; nothing else about the embassy changes either way. -/
theorem submit_message_submitted (e : Embassy) (m : EmbassyMessage) :
    ∃ l, (e.submit_message m).1.submitted = e.submitted ++ l ∧ ∀ x ∈ l, x = m := by
  unfold Embassy.submit_message
  split
  · exact ⟨[m], rfl, by simp⟩
  · exact ⟨[], by simp, by simp⟩

/-- Helper: the operation string of a composed command message is never the
Invalid name when the composed operation is not Invalid. -/
theorem toString_ne_invalid (op : ECCOperation) (h : op ≠ .Invalid) :
    op.toString ≠ "Invalid" := by
  cases op <;> first | exact absurd rfl h | decide

/-- Helper: one transition step leaves the status manager exactly
set_ecc_busy of the processed id. -/
theorem transition_step_sm (fwd : Bool) (st : SimState) (id : Nat) :
    (transition_step fwd st id).sm = st.sm.set_ecc_busy id := by
  unfold transition_step
  dsimp only
  split <;> rfl

/-- Helper: one transition step appends at most one command message for the
processed id, never carrying the Invalid operation. -/
theorem transition_step_submitted (fwd : Bool) (st : SimState) (id : Nat) :
    ∃ l, (transition_step fwd st id).embassy.submitted = st.embassy.submitted ++ l
      ∧ ∀ m ∈ l, m.kind = MessageKind.ECCOperationMsg ∧ m.id = id
          ∧ m.operation ≠ "Invalid" := by
  unfold transition_step
  dsimp only
  split
  case h_1 => exact ⟨[], by simp, by simp⟩
  case h_2 _ hne =>
    obtain ⟨l, hl, hm⟩ :=
      submit_message_submitted st.embassy (EmbassyMessage.compose_ecc_op _ id)
    refine ⟨l, hl, ?_⟩
    intro m hmem
    rw [hm m hmem]
    exact ⟨rfl, rfl, toString_ne_invalid _ hne⟩

/-- Helper: the submit log of the per-id fold of transition steps extends the
initial log by messages whose ids come from the processed list, all of kind
ECCOperation and none carrying the Invalid operation. -/
theorem foldl_transition_submitted (fwd : Bool) :
    ∀ (ids : List Nat) (st : SimState),
      ∃ l, ((ids.foldl (transition_step fwd) st).embassy.submitted
              = st.embassy.submitted ++ l)
        ∧ ∀ m ∈ l, m.kind = MessageKind.ECCOperationMsg ∧ m.id ∈ ids
            ∧ m.operation ≠ "Invalid"
  | [], st => ⟨[], by simp, by simp⟩
  | id :: rest, st => by
      obtain ⟨l1, h1, hm1⟩ := transition_step_submitted fwd st id
      obtain ⟨l2, h2, hm2⟩ := foldl_transition_submitted fwd rest (transition_step fwd st id)
      refine ⟨l1 ++ l2, ?_, ?_⟩
      · simp only [List.foldl_cons] at h2 ⊢
        rw [h2, h1, List.append_assoc]
      · intro m hm
        rcases List.mem_append.mp hm with hL | hR
        · obtain ⟨hk, hi, ho⟩ := hm1 m hL
          exact ⟨hk, by simp [hi], ho⟩
        · obtain ⟨hk, hi, ho⟩ := hm2 m hR
          exact ⟨hk, by simp [hi], ho⟩

/-- Helper: the status-manager effect of the per-id fold is exactly marking
every processed id busy, in order. -/
theorem foldl_transition_sm (fwd : Bool) :
    ∀ (ids : List Nat) (st : SimState),
      (ids.foldl (transition_step fwd) st).sm
        = ids.foldl (fun m i => m.set_ecc_busy i) st.sm
  | [], _ => rfl
  | id :: rest, st => by
      simp only [List.foldl_cons]
      rw [foldl_transition_sm fwd rest (transition_step fwd st id), transition_step_sm]

/-- C8 (amended): `transition_ecc` is the identity on an empty id list and on
a disconnected bus (submitting nothing and touching no status); otherwise
every submitted command message carries a non-Invalid operation (an id whose
looked-up operation is Invalid is skipped) and targets an id of the list,
while the status manager is `set_ecc_busy` applied to EVERY id of the list,
whether or not a command was submitted for it. -/
theorem transition_ecc_spec :
    (∀ (st : SimState) (fwd : Bool), transition_ecc st [] fwd = st)
    ∧ (∀ (st : SimState) (ids : List Nat) (fwd : Bool),
        st.embassy.is_connected = false → transition_ecc st ids fwd = st)
    ∧ (∀ (st : SimState) (ids : List Nat) (fwd : Bool), ids ≠ [] →
        st.embassy.is_connected = true →
        ((transition_ecc st ids fwd).sm = ids.foldl (fun m i => m.set_ecc_busy i) st.sm
         ∧ ∃ l, (transition_ecc st ids fwd).embassy.submitted = st.embassy.submitted ++ l
             ∧ ∀ m ∈ l, m.kind = MessageKind.ECCOperationMsg ∧ m.id ∈ ids
                 ∧ m.operation ≠ ECCOperation.toString .Invalid)) := by
  refine ⟨fun st fwd => rfl, ?_, ?_⟩
  · intro st ids fwd hconn
    unfold transition_ecc
    split
    · rfl
    · rw [if_pos]
      simp [hconn]
  · intro st ids fwd hne hconn
    have hrw : transition_ecc st ids fwd = ids.foldl (transition_step fwd) st := by
      unfold transition_ecc
      rw [if_neg (by simpa using hne), if_neg (by simp [hconn])]
    rw [hrw]
    exact ⟨foldl_transition_sm fwd ids st, foldl_transition_submitted fwd ids st⟩

/-- Helper: polling never touches the embassy half of the engine state (it
only updates the status manager and the poll counter). -/
theorem poll_embassy_embassy (env : Env) (st : SimState) :
    (poll_embassy env st).1.embassy = st.embassy := by
  unfold poll_embassy
  split
  · rfl
  · split <;> rfl

/-- Helper: a blocking wait that finishes leaves the embassy untouched and
finishes in a state satisfying its predicate. -/
theorem block_until_ok {pred : SimState → Bool} {env : Env} :
    ∀ {fuel : Nat} {st st2 : SimState}, block_until pred fuel env st = .ok st2 →
      st2.embassy = st.embassy ∧ pred st2 = true := by
  intro fuel
  induction fuel with
  | zero =>
      intro st st2 h
      exact absurd h (by simp [block_until])
  | succ n ih =>
      intro st st2 h
      simp only [block_until] at h
      have he : (poll_embassy env st).1.embassy = st.embassy := poll_embassy_embassy env st
      cases herr : (poll_embassy env st).2 with
      | some e =>
          rw [herr] at h
          exact absurd h (by simp)
      | none =>
          rw [herr] at h
          by_cases hpred : pred (poll_embassy env st).1 = true
          · rw [if_pos hpred] at h
            injection h with h2
            subst h2
            exact ⟨he, hpred⟩
          · rw [if_neg hpred] at h
            obtain ⟨h1, h2⟩ := ih h
            exact ⟨h1.trans he, h2⟩

/-- Helper: a blocking wait that propagates a poll error also leaves the
embassy untouched. -/
theorem block_until_fail {pred : SimState → Bool} {env : Env} :
    ∀ {fuel : Nat} {st st2 : SimState} {e : EmbassyError},
      block_until pred fuel env st = .fail st2 e → st2.embassy = st.embassy := by
  intro fuel
  induction fuel with
  | zero =>
      intro st st2 e h
      exact absurd h (by simp [block_until])
  | succ n ih =>
      intro st st2 e h
      simp only [block_until] at h
      have he : (poll_embassy env st).1.embassy = st.embassy := poll_embassy_embassy env st
      cases herr : (poll_embassy env st).2 with
      | some e2 =>
          rw [herr] at h
          injection h with h1 h2
          subst h1
          exact he
      | none =>
          rw [herr] at h
          by_cases hpred : pred (poll_embassy env st).1 = true
          · rw [if_pos hpred] at h
            exact absurd h (by simp)
          · rw [if_neg hpred] at h
            exact (ih h).trans he

/-- Helper: `transition_ecc` only ever appends command messages whose ids
come from its id list. -/
theorem transition_ecc_submitted (st : SimState) (ids : List Nat) (fwd : Bool) :
    ∃ l, (transition_ecc st ids fwd).embassy.submitted = st.embassy.submitted ++ l
      ∧ ∀ m ∈ l, m.id ∈ ids := by
  unfold transition_ecc
  split
  · exact ⟨[], by simp, by simp⟩
  · split
    · exact ⟨[], by simp, by simp⟩
    · obtain ⟨l, hl, hm⟩ := foldl_transition_submitted fwd ids st
      exact ⟨l, hl, fun m hmem => (hm m hmem).2.1⟩

/-- C2: cross-module sequencing of `forward_transition_all`: in the Prepare
phase only the master is transitioned first, and the front-end batch is
issued only once the status manager observes the master Prepared (a failing
run has routed commands to the master only); in the Configure phase the
front-ends are transitioned first and the master command is issued only once
the status manager observes all front-ends Ready; every aggregate operation
other than Describe, Prepare and Configure yields the typed
invalid-transition error with nothing submitted. -/
theorem forward_transition_all_sequencing :
    ∀ (fuel : Nat) (env : Env) (st : SimState), ForwardSeqProp fuel env st := by
  intro fuel env st
  unfold ForwardSeqProp
  refine ⟨?_, ?_, ?_⟩
  · intro hop
    have hmut : ∀ (stB : LoopOut), forward_mutant_prepared_blocking fuel env st = stB →
        ∀ (stM : SimState), (stB = .ok stM ∨ (∃ e, stB = .fail stM e)) →
          (∃ l, stM.embassy.submitted = st.embassy.submitted ++ l
            ∧ ∀ m ∈ l, m.id = MUTANT_ID) := by
      intro stB hB stM hM
      obtain ⟨l, hl, hmem⟩ := transition_ecc_submitted st [MUTANT_ID] true
      have hEmb : stM.embassy = (transition_ecc st [MUTANT_ID] true).embassy := by
        rcases hM with hMok | ⟨e, hMf⟩
        · subst hB
          exact (block_until_ok (by simpa [forward_mutant_prepared_blocking] using hMok)).1
        · subst hB
          exact block_until_fail (by simpa [forward_mutant_prepared_blocking] using hMf)
      refine ⟨l, by rw [hEmb, hl], ?_⟩
      intro m hmm
      simpa using hmem m hmm
    constructor
    · intro st2 hres
      unfold forward_transition_all at hres
      rw [hop] at hres
      cases hblk : forward_mutant_prepared_blocking fuel env st with
      | ok stMid =>
          rw [hblk] at hres
          injection hres with h2
          refine ⟨stMid, rfl, ?_, ?_, h2.symm⟩
          · exact (block_until_ok (by simpa [forward_mutant_prepared_blocking] using hblk)).2
          · exact hmut _ rfl stMid (Or.inl hblk)
      | fail stMid e =>
          rw [hblk] at hres
          exact absurd hres (by simp)
      | fuelOut =>
          rw [hblk] at hres
          exact absurd hres (by simp)
    · intro st2 e hres
      unfold forward_transition_all at hres
      rw [hop] at hres
      cases hblk : forward_mutant_prepared_blocking fuel env st with
      | ok stMid =>
          rw [hblk] at hres
          exact absurd hres (by simp)
      | fail stMid e2 =>
          rw [hblk] at hres
          injection hres with h1 h2
          subst h1
          exact hmut _ rfl stMid (Or.inr ⟨e2, hblk⟩)
      | fuelOut =>
          rw [hblk] at hres
          exact absurd hres (by simp)
  · intro hop
    have hfront : ∀ (stM : SimState), stM.embassy
          = (transition_ecc st (List.range (NUMBER_OF_MODULES - 1)) true).embassy →
        (∃ l, stM.embassy.submitted = st.embassy.submitted ++ l
          ∧ ∀ m ∈ l, m.id ≠ MUTANT_ID) := by
      intro stM hEmb
      obtain ⟨l, hl, hmem⟩ :=
        transition_ecc_submitted st (List.range (NUMBER_OF_MODULES - 1)) true
      refine ⟨l, by rw [hEmb, hl], ?_⟩
      intro m hmm
      have := List.mem_range.mp (hmem m hmm)
      have hm11 : MUTANT_ID = 11 := rfl
      have hn12 : NUMBER_OF_MODULES = 12 := rfl
      omega
    constructor
    · intro st2 hres
      unfold forward_transition_all at hres
      rw [hop] at hres
      cases hblk : forward_cobos_ready_blocking fuel env st with
      | ok stMid =>
          rw [hblk] at hres
          injection hres with h2
          refine ⟨stMid, rfl, ?_, ?_, h2.symm⟩
          · exact (block_until_ok (by simpa [forward_cobos_ready_blocking] using hblk)).2
          · exact hfront stMid
              (block_until_ok (by simpa [forward_cobos_ready_blocking] using hblk)).1
      | fail stMid e =>
          rw [hblk] at hres
          exact absurd hres (by simp)
      | fuelOut =>
          rw [hblk] at hres
          exact absurd hres (by simp)
    · intro st2 e hres
      unfold forward_transition_all at hres
      rw [hop] at hres
      cases hblk : forward_cobos_ready_blocking fuel env st with
      | ok stMid =>
          rw [hblk] at hres
          exact absurd hres (by simp)
      | fail stMid e2 =>
          rw [hblk] at hres
          injection hres with h1 h2
          subst h1
          exact hfront stMid
            (block_until_fail (by simpa [forward_cobos_ready_blocking] using hblk))
      | fuelOut =>
          rw [hblk] at hres
          exact absurd hres (by simp)
  · intro h1 h2 h3
    unfold forward_transition_all
    cases hE : (st.sm.get_system_ecc_status).get_forward_operation with
    | Describe => exact absurd hE h1
    | Prepare => exact absurd hE h2
    | Configure => exact absurd hE h3
    | Start => rfl
    | Undo => rfl
    | Breakup => rfl
    | Stop => rfl
    | Invalid => rfl

/-- Sanity check of the whole Prepare phase on concrete data: from the
all-Described startup state, with the environment acknowledging the MuTaNT
command and reporting it Prepared, `forward_transition_all` finishes and its
chronological submit log targets the MuTaNT first and the eleven front-ends
only afterwards. -/
theorem forward_transition_all_prepare_concrete_run :
    (forward_transition_all 1 mutantPreparedEnv allDescribedState).submitted_ids
      = some (MUTANT_ID :: List.range (NUMBER_OF_MODULES - 1)) := by decide

end AttpcEnvoy
